import Mathlib

/-!
# Verification of the libtdd suite execution engine

A shallow embedding of the libtdd unit-testing library (files
`src/test.c`, `src/runner.c`, `src/suite.c`, `src/stats.c`,
`src/timeutil.c`, `src/strutil.c`, `src/signals.c` and the header
`include/tdd.h`), together with theorems settling the specification
claims about it.

Modelling conventions:
* `struct timespec` becomes a pair of integers (`tv_sec`, `tv_nsec`).
* The monotonic clock (`clock_gettime(CLOCK_MONOTONIC, ..)`) is an
  oracle: every function of the C code that stamps a timestamp takes the
  value read from the clock as an explicit argument; the suite engine is
  parametrised by a stream of clock readings, one pair per executed test
  (the benchmark start reading and the benchmark fallback end reading).
* A test body (`runner_t::fn`) runs on its own joined thread and may
  mutate its `test_t` in any way; the only other state it can touch is
  the process-wide SIGSEGV counter.  A body is therefore embedded as an
  opaque function from the context it receives to the final context it
  leaves behind, paired with a `Bool` saying whether the crash counter
  changed between the engine's pre-test snapshot and its post-join read.
* Out-of-bounds array accesses of the C code (undefined behaviour) are
  modelled by `Option`: the function returns `none` where the C program
  has no defined result.
* Heap-allocation failures (`ENOMEM` paths) and engine-fatal
  environment failures (`sigaction`/`pthread_create`/`pthread_join`
  failing) are not modelled: every allocation succeeds and every thread
  is created and joined.
-/

/-- Embedding of `struct timespec`: seconds and nanoseconds, both signed C integers. -/
structure Timespec where
  tv_sec : Int
  tv_nsec : Int
deriving DecidableEq

/-- Constant `NSEC_S` from `src/timeutil.c`: nanoseconds per second. -/
def NSEC_S : Int := 1000000000

/-- The zero timestamp; `calloc` in `tdd_test_new` initialises every
timestamp of a fresh context to this value. -/
def zeroTs : Timespec := ⟨0, 0⟩

/-- Embedding of `__timespec_minus` from `src/timeutil.c`: subtract `b` from `a`,
borrowing one second when the nanosecond difference is negative. -/
def timespec_minus (a b : Timespec) : Timespec :=
  let sec := a.tv_sec - b.tv_sec
  let nsec := a.tv_nsec - b.tv_nsec
  if nsec < 0 then ⟨sec - 1, nsec + NSEC_S⟩ else ⟨sec, nsec⟩

/-- A timespec reinterpreted as a single integer number of nanoseconds. -/
def Timespec.toNanos (t : Timespec) : Int :=
  t.tv_sec * NSEC_S + t.tv_nsec

/-- Embedding of `__hasprefix` from `src/strutil.c`, written over the character list
of a Lean string: an empty (or null) `str` never has a prefix, an empty
prefix is a prefix of every non-empty string, and otherwise the first
`strlen(pre)` characters are compared (the C loop stops at the first
mismatch, so for a NUL-free prefix it is exactly list-prefix). -/
def hasPrefixChars (str pre : String) : Bool :=
  if str.data.length = 0 then false
  else if pre.data.length = 0 then true
  else pre.data.isPrefixOf str.data

/-- Embedding of `test_t` from `include/tdd.h`.  The four function-pointer fields
(`fail`/`error`/`begin`/`done`) always point at the four free functions
`test_fail`/`test_error`/`test_timer_start`/`test_timer_end` and are not
part of the data model.  `fail_msg == NULL` is `none`; the `err_msg`
array together with its length `err` is a list (the C invariant is that
exactly `err` entries are allocated). -/
structure Test where
  name : String
  failed : Bool
  err : Nat
  fail_msg : Option String
  err_msg : List String
  start : Timespec
  end_ : Timespec
  failed_at : Timespec
  error_at : Timespec
deriving DecidableEq

/-- Embedding of `tdd_test_new` from `src/test.c`: fresh context, not failed, no
errors, no messages, every timestamp calloc-zeroed. -/
def tdd_test_new (name : String) : Test :=
  { name := name
    failed := false
    err := 0
    fail_msg := none
    err_msg := []
    start := zeroTs
    end_ := zeroTs
    failed_at := zeroTs
    error_at := zeroTs }

/-- Embedding of `test_fail` from `src/test.c`: set the failed flag, replace the
failure message, stamp `failed_at` with the clock reading `now`.  (The
self-`pthread_join` in the C body returns `EDEADLK` and has no effect on
the context.) -/
def test_fail (now : Timespec) (t : Test) (msg : String) : Test :=
  { t with failed := true, fail_msg := some msg, failed_at := now }

/-- Embedding of `test_error` from `src/test.c`: bump the error counter, append the
message to the error-message array, stamp `error_at` with `now`. -/
def test_error (now : Timespec) (t : Test) (msg : String) : Test :=
  { t with
    err := t.err + 1
    err_msg := t.err_msg ++ [msg]
    error_at := now }

/-- Embedding of `test_timer_start` from `src/test.c`: stamp `start` with `now`. -/
def test_timer_start (now : Timespec) (t : Test) : Test :=
  { t with start := now }

/-- Embedding of `test_timer_end` from `src/test.c`: stamp `end` with `now`. -/
def test_timer_end (now : Timespec) (t : Test) : Test :=
  { t with end_ := now }

/-- A test body (`runner_t::fn` running on its joined thread): from the
fresh context it receives to the context it leaves behind, plus whether
the process-wide SIGSEGV counter changed while it ran (`__sigsegv_caught`
of `src/signals.c` is incremented by the handler on every caught
SIGSEGV). -/
def Body : Type := Test → Test × Bool

/-- Embedding of `runner_t` from `include/tdd.h`. -/
structure Runner where
  name : String
  desc : String
  fn : Body

/-- Embedding of `runner_new` from `src/runner.c`: `NULL` name or `NULL` function
pointer yield no runner; a `NULL` description is normalised to the empty
string; otherwise name and description are copied. -/
def runner_new (f : Option Body) (name : Option String) (desc : Option String) :
    Option Runner :=
  match name, f with
  | some n, some fn =>
    some { name := n, desc := (desc.getD ""), fn := fn }
  | _, _ => none

/-- Embedding of `suite_t` from `include/tdd.h`.  `outfile` and `quiet` only steer
the write-only reporting sink and are not part of the model; the
`results` array is modelled as the list of slots written so far. -/
structure Suite where
  finished : Bool
  n_tests : Nat
  n_segv : Nat
  test_index : Nat
  tests : List Runner
  results : List Test

/-- Embedding of `suite_new` from `src/suite.c`. -/
def suite_new : Suite :=
  { finished := false
    n_tests := 0
    n_segv := 0
    test_index := 0
    tests := []
    results := [] }

/-- Embedding of `suite_reset` from `src/suite.c`: clear the run state and the result
slots, keep the registered runners. -/
def suite_reset (s : Suite) : Suite :=
  { s with finished := false, n_segv := 0, test_index := 0, results := [] }

/-- Embedding of `suite_done` from `src/suite.c`. -/
def suite_done (s : Suite) : Suite :=
  { s with finished := true }

/-- Embedding of `suite_add_test` from `src/suite.c`: append one runner and grow the
result array alongside (the new result slot stays unwritten). -/
def suite_add_test (s : Suite) (r : Runner) : Suite :=
  { s with n_tests := s.n_tests + 1, tests := s.tests ++ [r] }

/-- The store `s->results[s->test_index++] = t` of `src/suite.c` line
208: overwrite the slot when it exists, append when the store targets
the first slot past the written ones. -/
def writeResult (rs : List Test) (i : Nat) (t : Test) : List Test :=
  if i < rs.length then rs.set i t else rs ++ [t]

/-- The fixed crash diagnostic of `src/suite.c` line 199. -/
def segvMsg : String := "encountered segmentation fault"

/-- The per-test part of `suite_next` (`src/suite.c` lines 157-205):
create a fresh context; if the runner name has the `bench_` prefix,
stamp its start with the first clock reading; run the body on its
joined thread; if benchmarking and the body left the end timestamp
calloc-zeroed, stamp it with the second clock reading; if the SIGSEGV
counter changed while the body ran, force the context to failed with
the fixed crash diagnostic (replacing any message the body set).
Returns the context as recorded into the results array, together with
the crash indicator. -/
def execContext (clk : Timespec × Timespec) (r : Runner) : Test × Bool :=
  let t0 := tdd_test_new r.name
  let bench := hasPrefixChars r.name "bench_"
  let t1 := if bench then test_timer_start clk.1 t0 else t0
  let br := r.fn t1
  let t2 := br.1
  let crashed := br.2
  let t3 :=
    if bench ∧ t2.end_.tv_sec = 0 ∧ t2.end_.tv_nsec = 0 then
      test_timer_end clk.2 t2
    else t2
  let t4 :=
    if crashed then
      { t3 with failed := true, fail_msg := some segvMsg }
    else t3
  (t4, crashed)

/-- The classification of `src/suite.c` lines 216-254: `failed` is
checked first, then the error count, else the test passed. -/
inductive Classification where
  | fail
  | error
  | pass
deriving DecidableEq

/-- The branch order of the report block in `suite_next`. -/
def classify (t : Test) : Classification :=
  if t.failed then Classification.fail
  else if t.err ≠ 0 then Classification.error
  else Classification.pass

/-- What `suite_next` hands to the reporting sink for one test: the
classification branch taken (lines 216-254) and, for a benchmark test,
the duration `__timespec_minus(t->end, t->start)` printed by lines
257-270. -/
structure Report where
  classification : Classification
  bench : Option Timespec
deriving DecidableEq

/-- Embedding of `suite_next` from `src/suite.c`: run the test at the cursor,
record its context, advance the cursor, bump `n_segv` when the crash
counter changed, report, and return `EXIT_FAILURE` (1) exactly when the
recorded context is failed and `fatal_failures` is set, else
`EXIT_SUCCESS` (0).  Reading `s->tests[s->test_index]` out of bounds is
undefined behaviour in the C source and yields `none` here. -/
def suite_next (clk : Timespec × Timespec) (s : Suite) (fatal_failures : Bool) :
    Option (Nat × Report × Suite) :=
  match s.tests[s.test_index]? with
  | none => none
  | some r =>
    let tc := execContext clk r
    let t := tc.1
    let crashed := tc.2
    let rep : Report :=
      { classification := classify t
        bench :=
          if hasPrefixChars r.name "bench_" then
            some (timespec_minus t.end_ t.start)
          else none }
    let s' : Suite :=
      { s with
        n_segv := s.n_segv + (if crashed then 1 else 0)
        results := writeResult s.results s.test_index t
        test_index := s.test_index + 1 }
    some ((if t.failed && fatal_failures then 1 else 0), rep, s')

/-- The loop of `suite_run` (`src/suite.c` lines 142-147): `count`
iterations remain, `i` is the loop counter (it indexes the clock
stream); each iteration calls `suite_next` and returns its result as
soon as it is non-zero; when the loop completes, `suite_done` marks the
suite finished.  The reports of the executed tests are collected in
order. -/
def runLoop (clock : Nat → Timespec × Timespec) (i count : Nat) (s : Suite)
    (fatal_failures : Bool) : Option (Nat × List Report × Suite) :=
  match count with
  | 0 => some (0, [], suite_done s)
  | Nat.succ c =>
    match suite_next (clock i) s fatal_failures with
    | none => none
    | some (ret, rep, s') =>
      if ret ≠ 0 then some (ret, [rep], s')
      else
        match runLoop clock (i + 1) c s' fatal_failures with
        | none => none
        | some (ret', reps, s'') => some (ret', rep :: reps, s'')

/-- Embedding of `suite_run` from `src/suite.c`: a `for` loop of exactly `n_tests`
iterations (the loop bound is the registered-test count, not the
cursor), then `suite_done`. -/
def suite_run (clock : Nat → Timespec × Timespec) (s : Suite)
    (fatal_failures : Bool) : Option (Nat × List Report × Suite) :=
  runLoop clock 0 s.n_tests s fatal_failures

/-- Embedding of `tdd_result_t` from `include/tdd.h`. -/
structure TddResult where
  name : String
  ok : Bool
deriving DecidableEq

/-- Embedding of `tdd_result_new` from `src/stats.c`. -/
def tdd_result_new (name : String) (ok : Bool) : TddResult :=
  { name := name, ok := ok }

/-- Embedding of `suite_stats_t` from `include/tdd.h`.  `success_rate` (a C
`double`) and `fatal_failures` are modelled as `Option` values where
`none` stands for an indeterminate (never-assigned) field of the
malloc-ed struct. -/
structure SuiteStats where
  tests_run : List TddResult
  n_tests : Nat
  n_error : Nat
  n_fail : Nat
  n_ran : Nat
  success_rate : Option ℚ
  fatal_failures : Option Bool
deriving DecidableEq

/-- Embedding of `suite_get_stats` from `src/stats.c`: for each index below the
cursor, pair the runner's name with `results[i].failed` as the `ok`
field (exactly as line 42 does), and count the results with a non-zero
error count and the failed results.  `success_rate` and
`fatal_failures` are never assigned by the C function and stay
indeterminate (`none`).  A cursor beyond either array is an
out-of-bounds read in the C source and yields `none`. -/
def suite_get_stats (s : Suite) : Option SuiteStats :=
  if s.test_index ≤ s.tests.length ∧ s.test_index ≤ s.results.length then
    let ran := s.results.take s.test_index
    some
      { tests_run :=
          (List.zip (s.tests.take s.test_index) ran).map
            (fun p => tdd_result_new p.1.name p.2.failed)
        n_tests := s.n_tests
        n_error := (ran.filter (fun r => r.err ≠ 0)).length
        n_fail := (ran.filter (fun r => r.failed)).length
        n_ran := s.test_index
        success_rate := none
        fatal_failures := none }
  else none

/-- Modelled from the spec (§4.5): the success rate the specification
prescribes for a suite, `0` when no test ran, else the fraction of run
tests with `failed == false` and `error_count == 0`.  No function of
the C source computes this value; this definition exists only to be
compared with what `suite_get_stats` actually produces. -/
def spec_success_rate (s : Suite) : ℚ :=
  if s.test_index = 0 then 0
  else
    (((s.results.take s.test_index).filter
        (fun r => !r.failed && r.err == 0)).length : ℚ) / (s.test_index : ℚ)

/-- The observables of a run the claims talk about: return code, number
of executed (reported) tests, final cursor, final result count, final
finished flag. -/
def projRun (x : Nat × List Report × Suite) : Nat × Nat × Nat × Nat × Bool :=
  (x.1, x.2.1.length, x.2.2.test_index, x.2.2.results.length, x.2.2.finished)

/-- The constant clock oracle used for concrete evaluations. -/
def clkZ : Nat → Timespec × Timespec := fun _ => (zeroTs, zeroTs)

/-- A body that returns without touching its context and without a
crash. -/
def dummyBody : Body := fun t => (t, false)

/-- A body whose run raises a caught SIGSEGV: the crash counter changes
while it runs. -/
def crashBody : Body := fun t => (t, true)

/-- A body that records a failure and returns. -/
def failBody : Body := fun t => (test_fail zeroTs t "boom", false)

/-- A benchmark body that calls the end timer and then the start timer,
leaving `end` before `start`. -/
def oddTimerBody : Body :=
  fun t => (test_timer_start ⟨5, 0⟩ (test_timer_end ⟨1, 0⟩ t), false)

/-- A runner that always passes. -/
def passRunner : Runner := { name := "t_pass", desc := "", fn := dummyBody }

/-- A runner that always fails. -/
def failRunner : Runner := { name := "t_fail", desc := "", fn := failBody }

/-- A runner whose body crashes. -/
def crashRunner : Runner := { name := "t_crash", desc := "", fn := crashBody }

/-- A benchmark runner whose body leaves `end` before `start`. -/
def benchRunner : Runner :=
  { name := "bench_backwards", desc := "", fn := oddTimerBody }

/-- A suite with one passing runner, not yet run. -/
def freshSuite : Suite :=
  { finished := false, n_tests := 1, n_segv := 0, test_index := 0
    tests := [passRunner], results := [] }

/-- A suite with one failing runner, not yet run. -/
def failSuite : Suite :=
  { finished := false, n_tests := 1, n_segv := 0, test_index := 0
    tests := [failRunner], results := [] }

/-- A suite with one crashing runner, not yet run. -/
def crashSuite : Suite :=
  { finished := false, n_tests := 1, n_segv := 0, test_index := 0
    tests := [crashRunner], results := [] }

/-- A suite with the backwards benchmark runner, not yet run. -/
def benchSuite : Suite :=
  { finished := false, n_tests := 1, n_segv := 0, test_index := 0
    tests := [benchRunner], results := [] }

/-- The suite `freshSuite` after a completed run (cursor at the end,
one recorded result, marked finished) and without an intervening
`suite_reset`. -/
def doneSuite : Suite :=
  { finished := true, n_tests := 1, n_segv := 0, test_index := 1
    tests := [passRunner], results := [tdd_test_new "t_pass"] }

/-- A recorded context that both failed and recorded one error. -/
def bothTest : Test :=
  test_error zeroTs (test_fail zeroTs (tdd_test_new "t_both") "boom") "oops"

/-- A suite whose single run test both failed and recorded an error. -/
def bothSuite : Suite :=
  { finished := true, n_tests := 1, n_segv := 0, test_index := 1
    tests := [{ name := "t_both", desc := "", fn := dummyBody }]
    results := [bothTest] }

/-- A suite whose two run tests are one pass and one failure, used to
evaluate `suite_get_stats` concretely. -/
def mixedSuite : Suite :=
  { finished := true, n_tests := 2, n_segv := 0, test_index := 2
    tests := [passRunner, failRunner]
    results := [tdd_test_new "t_pass",
                test_fail zeroTs (tdd_test_new "t_fail") "boom"] }

/-- The context recorded for a crashing body that itself reported
nothing. -/
def crashedTest : Test :=
  { name := "t_crash", failed := true, err := 0, fail_msg := some segvMsg
    err_msg := [], start := zeroTs, end_ := zeroTs, failed_at := zeroTs
    error_at := zeroTs }

lemma writeResult_append (rs : List Test) (t : Test) :
    writeResult rs rs.length t = rs ++ [t] := by
  simp [writeResult]

lemma suite_next_eq (clk : Timespec × Timespec) (s : Suite) (ff : Bool)
    (r : Runner) (h : s.tests[s.test_index]? = some r) :
    suite_next clk s ff = some
      ((if (execContext clk r).1.failed && ff then 1 else 0),
       { classification := classify (execContext clk r).1
         bench :=
           if hasPrefixChars r.name "bench_" then
             some (timespec_minus (execContext clk r).1.end_
               (execContext clk r).1.start)
           else none },
       { s with
         n_segv := s.n_segv + (if (execContext clk r).2 then 1 else 0)
         results := writeResult s.results s.test_index (execContext clk r).1
         test_index := s.test_index + 1 }) := by
  simp [suite_next, h]

lemma runLoop_false_map (c : Nat) :
    ∀ (clock : Nat → Timespec × Timespec) (i : Nat) (s : Suite),
    s.test_index + c ≤ s.tests.length → s.results.length = s.test_index →
    (runLoop clock i c s false).map projRun =
      some (0, c, s.test_index + c, s.test_index + c, true) := by
  induction c with
  | zero =>
    intro clock i s hle hres
    simp [runLoop, projRun, suite_done, hres]
  | succ c ih =>
    intro clock i s hle hres
    have hidx : s.test_index < s.tests.length := by omega
    have hr : s.tests[s.test_index]? = some s.tests[s.test_index] :=
      List.getElem?_eq_getElem hidx
    rw [runLoop, suite_next_eq (clock i) s false _ hr]
    set r := s.tests[s.test_index] with hrdef
    set t := (execContext (clock i) r).1 with htdef
    have hret : (if t.failed && false then 1 else 0) = 0 := by simp
    rw [hret]
    simp only [ne_eq, not_true_eq_false, if_false, reduceIte]
    set s' : Suite :=
      { s with
        n_segv := s.n_segv + (if (execContext (clock i) r).2 then 1 else 0)
        results := writeResult s.results s.test_index t
        test_index := s.test_index + 1 } with hs'
    have hnotlt : ¬ s.test_index < s.results.length := by omega
    have hres' : s'.results.length = s'.test_index := by
      simp only [hs']
      simp [writeResult, hnotlt]
      omega
    have hle' : s'.test_index + c ≤ s'.tests.length := by
      simp only [hs']
      omega
    have := ih clock (i + 1) s' hle' hres'
    obtain ⟨a, ha, hpa⟩ := Option.map_eq_some'.mp this
    obtain ⟨ret', reps, s''⟩ := a
    rw [ha]
    simp only [projRun, Prod.mk.injEq] at hpa
    obtain ⟨h1, h2, h3, h4, h5⟩ := hpa
    have hti : s'.test_index = s.test_index + 1 := by simp [hs']
    simp only [Option.map_some', projRun, List.length_cons, Option.some.injEq,
      Prod.mk.injEq]
    refine ⟨h1, ?_, ?_, ?_, h5⟩
    · omega
    · omega
    · omega

lemma runLoop_abort_map (k : Nat) :
    ∀ (c : Nat) (clock : Nat → Timespec × Timespec) (i : Nat) (s : Suite),
    s.results.length = s.test_index → k < c →
    s.test_index + k < s.tests.length →
    (∀ j r, j < k → s.tests[s.test_index + j]? = some r →
      (execContext (clock (i + j)) r).1.failed = false) →
    (∀ r, s.tests[s.test_index + k]? = some r →
      (execContext (clock (i + k)) r).1.failed = true) →
    (runLoop clock i c s true).map projRun =
      some (1, k + 1, s.test_index + k + 1, s.test_index + k + 1, s.finished) := by
  induction k with
  | zero =>
    intro c clock i s hres hkc hin hpass hfail
    obtain ⟨c, rfl⟩ : ∃ c', c = c' + 1 := ⟨c - 1, by omega⟩
    have hidx : s.test_index < s.tests.length := by omega
    have hr : s.tests[s.test_index]? = some s.tests[s.test_index] :=
      List.getElem?_eq_getElem hidx
    have hf : (execContext (clock i) s.tests[s.test_index]).1.failed = true := by
      have h0 : s.tests[s.test_index + 0]? = some s.tests[s.test_index] := by
        rw [Nat.add_zero]; exact hr
      have := hfail s.tests[s.test_index] h0
      rw [Nat.add_zero] at this
      exact this
    rw [runLoop, suite_next_eq (clock i) s true _ hr]
    have hnotlt : ¬ s.test_index < s.results.length := by omega
    simp [projRun, hf, writeResult, hnotlt]
    omega
  | succ k ih =>
    intro c clock i s hres hkc hin hpass hfail
    obtain ⟨c, rfl⟩ : ∃ c', c = c' + 1 := ⟨c - 1, by omega⟩
    have hidx : s.test_index < s.tests.length := by omega
    have hr : s.tests[s.test_index]? = some s.tests[s.test_index] :=
      List.getElem?_eq_getElem hidx
    have hp0 : (execContext (clock i) s.tests[s.test_index]).1.failed = false := by
      have h0 : s.tests[s.test_index + 0]? = some s.tests[s.test_index] := by
        rw [Nat.add_zero]; exact hr
      have := hpass 0 s.tests[s.test_index] (Nat.succ_pos k) h0
      rw [Nat.add_zero] at this
      exact this
    rw [runLoop, suite_next_eq (clock i) s true _ hr]
    rw [hp0]
    simp only [Bool.false_and, if_false, reduceIte, ne_eq, not_true_eq_false,
      not_false_eq_true]
    set t := (execContext (clock i) s.tests[s.test_index]).1 with htdef
    set s' : Suite :=
      { s with
        n_segv := s.n_segv +
          (if (execContext (clock i) s.tests[s.test_index]).2 then 1 else 0)
        results := writeResult s.results s.test_index t
        test_index := s.test_index + 1 } with hs'
    have hnotlt : ¬ s.test_index < s.results.length := by omega
    have hres' : s'.results.length = s'.test_index := by
      simp only [hs']
      simp [writeResult, hnotlt]
      omega
    have hti : s'.test_index = s.test_index + 1 := by simp [hs']
    have htests : s'.tests = s.tests := by simp [hs']
    have hfin : s'.finished = s.finished := by simp [hs']
    have hin' : s'.test_index + k < s'.tests.length := by
      rw [hti, htests]; omega
    have hpass' : ∀ j r, j < k → s'.tests[s'.test_index + j]? = some r →
        (execContext (clock (i + 1 + j)) r).1.failed = false := by
      intro j r hj hjr
      have hidxeq : s'.test_index + j = s.test_index + (j + 1) := by omega
      have hceq : i + 1 + j = i + (j + 1) := by omega
      rw [hceq]
      exact hpass (j + 1) r (by omega) (by rw [← hidxeq, ← htests]; exact hjr)
    have hfail' : ∀ r, s'.tests[s'.test_index + k]? = some r →
        (execContext (clock (i + 1 + k)) r).1.failed = true := by
      intro r hjr
      have hidxeq : s'.test_index + k = s.test_index + (k + 1) := by omega
      have hceq : i + 1 + k = i + (k + 1) := by omega
      rw [hceq]
      exact hfail r (by rw [← hidxeq, ← htests]; exact hjr)
    have := ih c clock (i + 1) s' hres' (by omega) hin' hpass' hfail'
    obtain ⟨a, ha, hpa⟩ := Option.map_eq_some'.mp this
    obtain ⟨ret', reps, s''⟩ := a
    rw [ha]
    simp only [projRun, Prod.mk.injEq] at hpa
    obtain ⟨h1, h2, h3, h4, h5⟩ := hpa
    have hfin5 : s''.finished = s.finished := by rw [h5, hfin]
    simp [projRun, h1, h2, hfin5]
    omega

lemma execContext_crash (clk : Timespec × Timespec) (r : Runner) (t : Test)
    (h : execContext clk r = (t, true)) :
    t.failed = true ∧ t.fail_msg = some segvMsg := by
  simp only [execContext] at h
  rcases hfn : r.fn (if hasPrefixChars r.name "bench_" then
      test_timer_start clk.1 (tdd_test_new r.name) else tdd_test_new r.name)
    with ⟨t2, crashed⟩
  rw [hfn] at h
  cases crashed with
  | false => simp at h
  | true =>
    have hfst := congrArg Prod.fst h
    simp at hfst
    exact ⟨by rw [← hfst], by rw [← hfst]⟩

/-- C1: the claim says the Stats snapshot's `success_rate` equals the
fraction of run tests with `failed == false` and `error_count == 0`
(defined as 0 when `n_ran == 0`).  The code never assigns the field:
`suite_get_stats` fills `tests_run`, `n_tests`, `n_ran`, `n_error` and
`n_fail` and leaves `success_rate` (and `fatal_failures`) as
indeterminate malloc-ed memory, modelled as `none` — so even on the
empty suite the snapshot does not carry the spec-prescribed defined
value `spec_success_rate suite_new = 0`. -/
theorem c1_success_rate_never_assigned :
    suite_get_stats suite_new =
      some { tests_run := [], n_tests := 0, n_error := 0, n_fail := 0,
             n_ran := 0, success_rate := none, fatal_failures := none } ∧
    (suite_get_stats suite_new).map SuiteStats.success_rate ≠
      some (some (spec_success_rate suite_new)) := by
  refine ⟨rfl, ?_⟩
  decide

/-- C2: the claim says the i-th per-test outcome record carries the
i-th runner's name and `ok == true` iff the i-th result's `failed` is
false.  The code passes `results[i]->failed` itself as the `ok`
argument (`src/stats.c` line 42), so the polarity is inverted: on a
suite whose run tests are one pass (`failed = false`) and one failure
(`failed = true`), the records come out `ok = false` for the passing
test and `ok = true` for the failing one. -/
theorem c2_ok_field_is_failed :
    (tdd_test_new "t_pass").failed = false ∧
    (test_fail zeroTs (tdd_test_new "t_fail") "boom").failed = true ∧
    suite_get_stats mixedSuite =
      some { tests_run := [tdd_result_new "t_pass" false,
                           tdd_result_new "t_fail" true],
             n_tests := 2, n_error := 0, n_fail := 1, n_ran := 2,
             success_rate := none, fatal_failures := none } := by
  refine ⟨rfl, rfl, ?_⟩
  rfl

/-- C9 (counterexample): the claim says runner construction fails
whenever the name is empty; `runner_new` only checks the name and the
body for `NULL` (`src/runner.c` line 18), so an empty name is accepted
and a runner is produced. -/
theorem c9_empty_name_accepted :
    runner_new (some dummyBody) (some "") none ≠ none := by
  simp [runner_new]

/-- C9 (amended): `runner_new` fails (returns no runner) exactly when
the name or the body is absent (`NULL`); an empty but present name is
accepted; an absent description is normalised to the empty string and a
present one is copied. -/
theorem c9_runner_new_null_checks :
    (∀ n d, runner_new none n d = none) ∧
    (∀ f d, runner_new f none d = none) ∧
    (∀ b n, runner_new (some b) (some n) none =
      some { name := n, desc := "", fn := b }) ∧
    (∀ b n d, runner_new (some b) (some n) (some d) =
      some { name := n, desc := d, fn := b }) := by
  refine ⟨?_, ?_, ?_, ?_⟩
  · intro n d; cases n <;> rfl
  · intro f d; cases f <;> rfl
  · intro b n; rfl
  · intro b n d; rfl

/-- C10: `test_fail` touches only the failed flag, the failure message
and the `failed_at` stamp, leaving the error count, the error-message
list, the start/end stamps (and `error_at` and the name) unchanged;
`test_error` touches only the error count, the error-message list and
the `error_at` stamp, leaving the failed flag, the failure message, the
start/end stamps (and `failed_at` and the name) unchanged. -/
theorem c10_recorders_are_independent :
    ∀ (now : Timespec) (t : Test) (msg : String),
    (test_fail now t msg).failed = true ∧
    (test_fail now t msg).fail_msg = some msg ∧
    (test_fail now t msg).failed_at = now ∧
    (test_fail now t msg).err = t.err ∧
    (test_fail now t msg).err_msg = t.err_msg ∧
    (test_fail now t msg).start = t.start ∧
    (test_fail now t msg).end_ = t.end_ ∧
    (test_fail now t msg).error_at = t.error_at ∧
    (test_fail now t msg).name = t.name ∧
    (test_error now t msg).err = t.err + 1 ∧
    (test_error now t msg).err_msg = t.err_msg ++ [msg] ∧
    (test_error now t msg).error_at = now ∧
    (test_error now t msg).failed = t.failed ∧
    (test_error now t msg).fail_msg = t.fail_msg ∧
    (test_error now t msg).start = t.start ∧
    (test_error now t msg).end_ = t.end_ ∧
    (test_error now t msg).failed_at = t.failed_at ∧
    (test_error now t msg).name = t.name := by
  intro now t msg
  exact ⟨rfl, rfl, rfl, rfl, rfl, rfl, rfl, rfl, rfl, rfl, rfl, rfl, rfl,
    rfl, rfl, rfl, rfl, rfl⟩

/-- C3: running a suite from its initial state with
`fatal_failures = true`, if the contexts of the first `k` executed
tests end unfailed and the context of the `(k+1)`-st executed test ends
failed, then `suite_run` returns the abort code 1, exactly `k + 1`
tests were executed (reported), the cursor and the results list both
end at `k + 1`, and the suite is not marked finished. -/
theorem c3_abort_on_failure (clock : Nat → Timespec × Timespec) (s : Suite)
    (k : Nat) (hti : s.test_index = 0) (hres : s.results = [])
    (hfin : s.finished = false) (hn : s.n_tests = s.tests.length)
    (hk : k < s.n_tests)
    (hpass : ∀ j r, j < k → s.tests[j]? = some r →
      (execContext (clock j) r).1.failed = false)
    (hfail : ∀ r, s.tests[k]? = some r →
      (execContext (clock k) r).1.failed = true) :
    (suite_run clock s true).map projRun = some (1, k + 1, k + 1, k + 1, false) := by
  have hres0 : s.results.length = s.test_index := by rw [hres, hti]; rfl
  have hin : s.test_index + k < s.tests.length := by omega
  have hpass' : ∀ j r, j < k → s.tests[s.test_index + j]? = some r →
      (execContext (clock (0 + j)) r).1.failed = false := by
    intro j r hj hjr
    rw [Nat.zero_add]
    exact hpass j r hj (by rw [hti, Nat.zero_add] at hjr; exact hjr)
  have hfail' : ∀ r, s.tests[s.test_index + k]? = some r →
      (execContext (clock (0 + k)) r).1.failed = true := by
    intro r hjr
    rw [Nat.zero_add]
    exact hfail r (by rw [hti, Nat.zero_add] at hjr; exact hjr)
  have := runLoop_abort_map k s.n_tests clock 0 s hres0 hk hin hpass' hfail'
  rw [suite_run, this, hti, hfin, Nat.zero_add]

/-- C3 witness: a one-runner suite whose body records a failure aborts
after that first test. -/
theorem c3_abort_on_failure_witness :
    failSuite.test_index = 0 ∧
    (suite_run clkZ failSuite true).map projRun = some (1, 1, 1, 1, false) := by
  refine ⟨rfl, ?_⟩
  refine c3_abort_on_failure clkZ failSuite 0 rfl rfl rfl rfl (by decide)
    (fun j r hj _ => absurd hj (Nat.not_lt_zero j)) ?_
  intro r hr
  have h : failRunner = r := Option.some.inj hr
  rw [← h]
  decide

/-- C5 (counterexample): the claim says `run` executes `step` only
while `cursor < len(runners)`, so on a suite whose cursor already
equals the registered count it would execute nothing and simply mark
the suite done.  The code's loop is `for (i = 0; i < n_tests; i++)`
regardless of the cursor (`src/suite.c` line 142), so on the completed
`doneSuite` it calls `suite_next` again, which reads
`tests[test_index]` out of bounds (undefined behaviour, modelled as
`none`) instead of executing no test body. -/
theorem c5_rerun_is_not_a_noop :
    suite_run clkZ doneSuite false ≠ some (0, [], suite_done doneSuite) := by
  have h : suite_run clkZ doneSuite false = none := rfl
  rw [h]
  simp

/-- C5 (amended): `suite_run` iterates exactly `n_tests` times
whatever the cursor says; invoked on a suite whose cursor already
equals the number of registered runners (with at least one runner) the
first iteration's `suite_next` performs an out-of-bounds runner lookup
— undefined behaviour, modelled as `none` — rather than executing no
test body; a suite must be `suite_reset` before it is run again. -/
theorem c5_rerun_out_of_bounds (clock : Nat → Timespec × Timespec) (s : Suite)
    (ff : Bool) (h1 : s.test_index = s.n_tests) (h2 : s.n_tests = s.tests.length)
    (h3 : 1 ≤ s.n_tests) :
    suite_run clock s ff = none := by
  obtain ⟨c, hc⟩ : ∃ c, s.n_tests = c + 1 := ⟨s.n_tests - 1, by omega⟩
  have hnone : s.tests[s.test_index]? = none := by
    rw [List.getElem?_eq_none]
    omega
  rw [suite_run, hc, runLoop]
  simp [suite_next, hnone]

/-- C5 witness: the completed one-runner suite hits the undefined
out-of-bounds read when run again. -/
theorem c5_rerun_out_of_bounds_witness :
    1 ≤ doneSuite.n_tests ∧ suite_run clkZ doneSuite true = none :=
  ⟨by decide, c5_rerun_out_of_bounds clkZ doneSuite true rfl rfl (by decide)⟩

/-- C6: running a suite with `N` registered runners from its initial
state with `fatal_failures = false` executes all `N` tests and ends
with return code 0, cursor `N`, `N` recorded results, and the suite
marked finished. -/
theorem c6_run_completes (clock : Nat → Timespec × Timespec) (s : Suite)
    (hti : s.test_index = 0) (hres : s.results = [])
    (hn : s.n_tests = s.tests.length) :
    (suite_run clock s false).map projRun =
      some (0, s.n_tests, s.n_tests, s.n_tests, true) := by
  have hres0 : s.results.length = s.test_index := by rw [hres, hti]; rfl
  have hle : s.test_index + s.n_tests ≤ s.tests.length := by omega
  have := runLoop_false_map s.n_tests clock 0 s hle hres0
  rw [suite_run, this, hti, Nat.zero_add]

/-- C6 witness: the fresh one-runner suite runs to completion. -/
theorem c6_run_completes_witness :
    freshSuite.test_index = 0 ∧
    (suite_run clkZ freshSuite false).map projRun = some (0, 1, 1, 1, true) :=
  ⟨rfl, c6_run_completes clkZ freshSuite rfl rfl rfl⟩

/-- C4: when the crash counter changed while a test body ran
(`execContext` returns the crash flag `true`), the recorded context is
forced to `failed = true` with the fixed crash diagnostic (replacing
whatever message the body set), `suite_next` bumps the suite's
`n_segv` by exactly 1 and records that context at the cursor; and with
`fatal_failures = false` a run still executes every registered test, so
tests after a crashed one are not skipped. -/
theorem c4_crash_detection :
    (∀ (clk : Timespec × Timespec) (s : Suite) (ff : Bool) (r : Runner)
      (t : Test), s.results.length = s.test_index →
      s.tests[s.test_index]? = some r → execContext clk r = (t, true) →
      t.failed = true ∧ t.fail_msg = some segvMsg ∧
      (suite_next clk s ff).map
        (fun x => (x.2.2.n_segv, x.2.2.results[s.test_index]?)) =
        some (s.n_segv + 1, some t)) ∧
    (∀ (clock : Nat → Timespec × Timespec) (s : Suite), s.test_index = 0 →
      s.results = [] → s.n_tests = s.tests.length →
      (suite_run clock s false).map projRun =
        some (0, s.n_tests, s.n_tests, s.n_tests, true)) := by
  constructor
  · intro clk s ff r t hres hr hex
    obtain ⟨hf, hm⟩ := execContext_crash clk r t hex
    have hcr : (execContext clk r).2 = true := by rw [hex]
    have ht1 : (execContext clk r).1 = t := by rw [hex]
    refine ⟨hf, hm, ?_⟩
    rw [suite_next_eq clk s ff r hr]
    simp only [Option.map_some', Option.some.injEq, Prod.mk.injEq]
    constructor
    · rw [hcr]; simp
    · rw [ht1, ← hres, writeResult_append]
      exact List.getElem?_concat_length s.results t
  · intro clock s hti hres hn
    have hres0 : s.results.length = s.test_index := by rw [hres, hti]; rfl
    have hle : s.test_index + s.n_tests ≤ s.tests.length := by omega
    have := runLoop_false_map s.n_tests clock 0 s hle hres0
    rw [suite_run, this, hti, Nat.zero_add]

/-- C4 witness: the one-runner crashing suite records the forced
failure with the fixed diagnostic, bumps `n_segv` to 1, and a run with
`fatal_failures = false` still completes. -/
theorem c4_crash_detection_witness :
    crashedTest.failed = true ∧ crashedTest.fail_msg = some segvMsg ∧
    (suite_next (clkZ 0) crashSuite false).map
      (fun x => (x.2.2.n_segv, x.2.2.results[crashSuite.test_index]?)) =
      some (crashSuite.n_segv + 1, some crashedTest) ∧
    (suite_run clkZ crashSuite false).map projRun = some (0, 1, 1, 1, true) := by
  obtain ⟨h1, h2, h3⟩ := c4_crash_detection.1 (clkZ 0) crashSuite false
    crashRunner crashedTest rfl rfl (by decide)
  refine ⟨h1, h2, h3, ?_⟩
  exact c4_crash_detection.2 clkZ crashSuite rfl rfl rfl

/-- C7 (counterexample): the claim says a test that both failed and
recorded errors is counted as a failure and not as an error; in the
stats of a suite whose single run test both failed and recorded one
error, `n_error` is 1 and not 0 (`src/stats.c` line 45 counts every run
test with `err != 0`, whether or not it failed). -/
theorem c7_error_also_counted :
    bothTest.failed = true ∧ bothTest.err ≠ 0 ∧
    (suite_get_stats bothSuite).map SuiteStats.n_error ≠ some 0 := by
  exact ⟨rfl, by decide, by decide⟩

/-- C7 (amended): a run test whose context both failed and recorded
errors is classified and reported as a failure (the report of
`suite_next` checks `failed` before the error count), and in the stats
it is counted among the failures — but it is also counted among the
errors, since `n_error` counts every run test with a non-zero error
count regardless of the failed flag. -/
theorem c7_failed_checked_first (s : Suite) (st : SuiteStats) (i : Nat)
    (r : Test) (hst : suite_get_stats s = some st) (hi : i < s.test_index)
    (hr : s.results[i]? = some r) (hf : r.failed = true) (he : r.err ≠ 0) :
    classify r = Classification.fail ∧ 1 ≤ st.n_fail ∧ 1 ≤ st.n_error := by
  have hcls : classify r = Classification.fail := by simp [classify, hf]
  unfold suite_get_stats at hst
  split at hst
  case isFalse => exact absurd hst (by simp)
  case isTrue h =>
    have hst' := Option.some.inj hst
    have hmem : r ∈ s.results.take s.test_index := by
      have htake : (s.results.take s.test_index)[i]? = some r := by
        rw [List.getElem?_take_of_lt hi]
        exact hr
      exact List.getElem?_mem htake
    refine ⟨hcls, ?_, ?_⟩
    · have hmf : r ∈ (s.results.take s.test_index).filter
          (fun x => x.failed) := List.mem_filter.mpr ⟨hmem, by simp [hf]⟩
      have := List.length_pos_of_mem hmf
      rw [← hst']
      simpa using this
    · have hme : r ∈ (s.results.take s.test_index).filter
          (fun x => x.err ≠ 0) := List.mem_filter.mpr ⟨hmem, by simp [he]⟩
      have := List.length_pos_of_mem hme
      rw [← hst']
      simpa using this

/-- C7 witness: the both-failed-and-erred one-test suite instantiates
the amended statement. -/
theorem c7_failed_checked_first_witness :
    bothTest.failed = true ∧
    (classify bothTest = Classification.fail ∧
     1 ≤ (1 : Nat) ∧ 1 ≤ (1 : Nat)) := by
  refine ⟨rfl, ?_⟩
  exact c7_failed_checked_first bothSuite
    { tests_run := [tdd_result_new "t_both" true], n_tests := 1, n_error := 1,
      n_fail := 1, n_ran := 1, success_rate := none, fatal_failures := none }
    0 bothTest rfl (by decide) rfl rfl (by decide)

/-- C8 (counterexample): the claim says the reported benchmark
duration saturates at zero when `ended_at` precedes `started_at`; a
benchmark body that leaves `end = 1s` and `start = 5s` makes
`suite_next` report `__timespec_minus(end, start) = -4s 0ns`, a
negative duration, not zero. -/
theorem c8_negative_bench_duration :
    (suite_next (clkZ 0) benchSuite false).map (fun x => x.2.1.bench) =
      some (some ⟨-4, 0⟩) ∧
    (⟨-4, 0⟩ : Timespec).tv_sec < 0 := by
  exact ⟨by decide, by decide⟩

/-- C8 (amended): for a benchmark test the reported elapsed duration
is `__timespec_minus(ended_at, started_at)`, the exact (borrow-
normalised) difference — equal, as integer nanoseconds, to `ended_at`
minus `started_at`, with no saturation at zero, hence negative whenever
`ended_at` precedes `started_at`. -/
theorem c8_duration_is_exact_difference :
    (∀ (clk : Timespec × Timespec) (s : Suite) (ff : Bool) (r : Runner),
      s.tests[s.test_index]? = some r →
      hasPrefixChars r.name "bench_" = true →
      (suite_next clk s ff).map (fun x => x.2.1.bench) =
        some (some (timespec_minus (execContext clk r).1.end_
          (execContext clk r).1.start))) ∧
    (∀ a b : Timespec, (timespec_minus a b).toNanos = a.toNanos - b.toNanos) := by
  constructor
  · intro clk s ff r hr hb
    rw [suite_next_eq clk s ff r hr]
    simp [hb]
  · intro a b
    simp only [timespec_minus, Timespec.toNanos, NSEC_S]
    split <;> ring

/-- C8 witness: the backwards benchmark suite instantiates both parts
of the amended statement. -/
theorem c8_duration_is_exact_difference_witness :
    benchSuite.tests[benchSuite.test_index]? = some benchRunner ∧
    (suite_next (clkZ 0) benchSuite false).map (fun x => x.2.1.bench) =
      some (some (timespec_minus (execContext (clkZ 0) benchRunner).1.end_
        (execContext (clkZ 0) benchRunner).1.start)) ∧
    (timespec_minus ⟨1, 0⟩ ⟨5, 0⟩).toNanos =
      (⟨1, 0⟩ : Timespec).toNanos - (⟨5, 0⟩ : Timespec).toNanos :=
  ⟨rfl,
   c8_duration_is_exact_difference.1 (clkZ 0) benchSuite false benchRunner rfl
     (by decide),
   c8_duration_is_exact_difference.2 ⟨1, 0⟩ ⟨5, 0⟩⟩
